import Mathlib

/-!
Verification development for the two-agent support system
(`multi_agent_system.py`, `multi_agent_cloud.py`).

The Python code is shallowly embedded: Python strings become `String`
(operated on through their `List Char` data so that everything reduces in
the kernel), Python floats that only ever hold exact decimal constants
(the routing confidences 0.5 / 0.6 / 0.7 / 0.8 / 0.9 / 0.95) become `Rat`
built with `mkRat`, `datetime.now()` becomes an abstract `Nat` tick passed
in by the caller, and `uuid.uuid4().hex` becomes an abstract fresh string
passed in by the caller.  Calls to the generative backend (OpenAI / Ollama)
are abstracted by per-turn oracle values giving the outcome of each call:
the classification call is an `Except String String` (it may raise, which
the Python code catches), the responder-side calls are plain `String`s
(the Python wrappers catch internally and return an error-shaped string).
-/

/-! ## Python string primitives (over the character data) -/

/-- Lowercasing of one character as Python `str.lower` acts on the
character sets that occur in this repository: ASCII `A`-`Z`, the Cyrillic
range `А`-`Я`, and the extra Ukrainian letters `І Ї Є Ґ`. -/
def pyLowerChar (c : Char) : Char :=
  if 'A' ≤ c ∧ c ≤ 'Z' then Char.ofNat (c.toNat + 32)
  else if 'А' ≤ c ∧ c ≤ 'Я' then Char.ofNat (c.toNat + 32)
  else if c = 'І' then 'і'
  else if c = 'Ї' then 'ї'
  else if c = 'Є' then 'є'
  else if c = 'Ґ' then 'ґ'
  else c

/-- Uppercasing of one character as Python `str.upper` acts on the same
character sets. -/
def pyUpperChar (c : Char) : Char :=
  if 'a' ≤ c ∧ c ≤ 'z' then Char.ofNat (c.toNat - 32)
  else if 'а' ≤ c ∧ c ≤ 'я' then Char.ofNat (c.toNat - 32)
  else if c = 'і' then 'І'
  else if c = 'ї' then 'Ї'
  else if c = 'є' then 'Є'
  else if c = 'ґ' then 'Ґ'
  else c

/-- Python `s.lower()`. -/
def pyLower (s : String) : String := ⟨s.data.map pyLowerChar⟩

/-- Python `s.upper()`. -/
def pyUpper (s : String) : String := ⟨s.data.map pyUpperChar⟩

/-- Python `s.strip()` (with the whitespace characters of `Char.isWhitespace`). -/
def pyStrip (s : String) : String :=
  ⟨((s.data.dropWhile Char.isWhitespace).reverse.dropWhile Char.isWhitespace).reverse⟩

/-- Does `pre` start the list `l`?  (Python `str.startswith`, on characters.) -/
def listStarts : List Char → List Char → Bool
  | [], _ => true
  | _ :: _, [] => false
  | a :: as, b :: bs => a == b && listStarts as bs

/-- Contiguous containment of `needle` in `hay` (Python `needle in hay`). -/
def listContains (needle : List Char) : List Char → Bool
  | [] => needle.isEmpty
  | b :: t => listStarts needle (b :: t) || listContains needle t

/-- Python `needle in hay` on strings. -/
def substrB (needle hay : String) : Bool := listContains needle.data hay.data

/-- Python `s.startswith(pre)`. -/
def startsWithB (s pre : String) : Bool := listStarts pre.data s.data

/-- Python slice `s[:n]` (by code points, as in Python 3). -/
def pyTake (s : String) (n : Nat) : String := ⟨s.data.take n⟩

/-- Worker for `pySplit`: accumulates the current word reversed. -/
def pySplitGo : List Char → List Char → List String
  | [], cur => if cur.isEmpty then [] else [⟨cur.reverse⟩]
  | c :: t, cur =>
    if c.isWhitespace then
      if cur.isEmpty then pySplitGo t [] else (⟨cur.reverse⟩ : String) :: pySplitGo t []
    else pySplitGo t (c :: cur)

/-- Python `s.split()` with no argument: split on runs of whitespace,
producing no empty words. -/
def pySplit (s : String) : List String := pySplitGo s.data []

/-! ## Document store and retrieval scorer
(`TechnicalAgentA.search_documents` in both files) -/

/-- A loaded document fragment (`self.documents` entries). -/
structure Doc where
  content : String
  source : String
  section_id : Nat
deriving DecidableEq

/-- A scored fragment as appended to `scored_docs` in `search_documents`. -/
structure ScoredDoc where
  content : String
  source : String
  section_id : Nat
  score : Nat
deriving DecidableEq

/-- The per-fragment score computed inside the `search_documents` loop of
`multi_agent_system.py` (lines 568-580) and `multi_agent_cloud.py`
(lines 303-315): `+5` when the lowercased query occurs in the lowercased
content, `+1` per query word longer than 3 characters occurring in the
lowercased content. -/
def fragment_score (query content : String) : Nat :=
  let query_lower := pyLower query
  let content_lower := pyLower content
  let base := if substrB query_lower content_lower then 5 else 0
  let query_words := pySplit query_lower
  let word_matches :=
    (query_words.filter (fun word => decide (3 < word.length) && substrB word content_lower)).length
  base + word_matches

/-- The `scored_docs` list built by the loop in
`multi_agent_system.py:571-588`: fragments in load order, keeping exactly
those with positive score. -/
def scored_docs (docs : List Doc) (query : String) : List ScoredDoc :=
  docs.filterMap (fun doc =>
    let score := fragment_score query doc.content
    if 0 < score then some ⟨doc.content, doc.source, doc.section_id, score⟩ else none)

/-- The `scored_docs` list built by `multi_agent_cloud.py:306-323`; same
scoring, but the stored content is truncated to 200 characters. -/
def scored_docs_cloud (docs : List Doc) (query : String) : List ScoredDoc :=
  docs.filterMap (fun doc =>
    let score := fragment_score query doc.content
    if 0 < score then some ⟨pyTake doc.content 200, doc.source, doc.section_id, score⟩ else none)

/-- Stable insertion into a descending-by-score list: the new element goes
after every element with strictly greater score, hence before equal-score
elements that were inserted from further right. -/
def insertDesc (d : ScoredDoc) : List ScoredDoc → List ScoredDoc
  | [] => [d]
  | x :: xs => if d.score < x.score then x :: insertDesc d xs else d :: x :: xs

/-- Stable sort descending by score.  Python's `list.sort(key=..., reverse=True)`
is a stable sort; every stable descending sort produces this same list. -/
def sortDesc : List ScoredDoc → List ScoredDoc
  | [] => []
  | x :: xs => insertDesc x (sortDesc xs)

/-- `scored_docs.sort(key=lambda x: x['score'], reverse=True)` followed by
`[:top_k]`. -/
def rankDocs (scored : List ScoredDoc) (top_k : Nat) : List ScoredDoc :=
  (sortDesc scored).take top_k

/-- `TechnicalAgentA.search_documents` of `multi_agent_system.py:563-591`. -/
def search_documents (docs : List Doc) (query : String) (top_k : Nat) : List ScoredDoc :=
  if docs = [] then [] else rankDocs (scored_docs docs query) top_k

/-- `TechnicalAgentA.search_documents` of `multi_agent_cloud.py:298-326`. -/
def search_documents_cloud (docs : List Doc) (query : String) (top_k : Nat) : List ScoredDoc :=
  if docs = [] then [] else rankDocs (scored_docs_cloud docs query) top_k

/-! ## Lemmas about the stable descending sort -/

theorem insertDesc_perm (d : ScoredDoc) (l : List ScoredDoc) :
    List.Perm (insertDesc d l) (d :: l) := by
  induction l with
  | nil => exact List.Perm.refl _
  | cons x xs ih =>
    by_cases h : d.score < x.score
    · simp only [insertDesc, if_pos h]
      exact (ih.cons x).trans (List.Perm.swap d x xs)
    · simp only [insertDesc, if_neg h]
      exact List.Perm.refl _

theorem sortDesc_perm (l : List ScoredDoc) : List.Perm (sortDesc l) l := by
  induction l with
  | nil => exact List.Perm.refl _
  | cons x xs ih => exact (insertDesc_perm x (sortDesc xs)).trans (ih.cons x)

theorem pairwise_insertDesc {d : ScoredDoc} {l : List ScoredDoc}
    (h : l.Pairwise (fun a b => b.score ≤ a.score)) :
    (insertDesc d l).Pairwise (fun a b => b.score ≤ a.score) := by
  induction l with
  | nil => simp [insertDesc]
  | cons x xs ih =>
    rw [List.pairwise_cons] at h
    obtain ⟨hx, hxs⟩ := h
    by_cases hlt : d.score < x.score
    · simp only [insertDesc, if_pos hlt]
      rw [List.pairwise_cons]
      refine ⟨?_, ih hxs⟩
      intro b hb
      rcases List.mem_cons.mp ((insertDesc_perm d xs).mem_iff.mp hb) with rfl | hb
      · omega
      · exact hx b hb
    · simp only [insertDesc, if_neg hlt]
      rw [List.pairwise_cons]
      refine ⟨?_, List.pairwise_cons.mpr ⟨hx, hxs⟩⟩
      intro b hb
      rcases List.mem_cons.mp hb with rfl | hb
      · omega
      · have := hx b hb
        omega

theorem sortDesc_pairwise (l : List ScoredDoc) :
    (sortDesc l).Pairwise (fun a b => b.score ≤ a.score) := by
  induction l with
  | nil => simp [sortDesc]
  | cons x xs ih => exact pairwise_insertDesc ih

theorem filter_insertDesc (v : Nat) (d : ScoredDoc) (l : List ScoredDoc) :
    (insertDesc d l).filter (fun x => x.score == v)
      = (d :: l).filter (fun x => x.score == v) := by
  induction l with
  | nil => rfl
  | cons x xs ih =>
    by_cases hlt : d.score < x.score
    · simp only [insertDesc, if_pos hlt]
      by_cases hx : x.score = v
      · have hd : ¬ d.score = v := by omega
        simp [List.filter_cons, hx, hd, ih]
      · by_cases hd : d.score = v
        · simp [List.filter_cons, hx, hd, ih]
        · simp [List.filter_cons, hx, hd, ih]
    · simp [insertDesc, hlt]

theorem filter_sortDesc (v : Nat) (l : List ScoredDoc) :
    (sortDesc l).filter (fun x => x.score == v) = l.filter (fun x => x.score == v) := by
  induction l with
  | nil => rfl
  | cons x xs ih =>
    calc (insertDesc x (sortDesc xs)).filter (fun x => x.score == v)
        = (x :: sortDesc xs).filter (fun x => x.score == v) := filter_insertDesc v x (sortDesc xs)
      _ = (x :: xs).filter (fun x => x.score == v) := by
          by_cases hx : x.score = v <;> simp [List.filter_cons, hx, ih]

theorem filter_take_append {α : Type} (p : α → Bool) :
    ∀ (k : Nat) (l : List α), ∃ t, (l.take k).filter p ++ t = l.filter p
  | _, [] => ⟨[], by simp⟩
  | 0, x :: xs => ⟨(x :: xs).filter p, by simp⟩
  | k + 1, x :: xs => by
    obtain ⟨t, ht⟩ := filter_take_append p k xs
    by_cases hx : p x
    · exact ⟨t, by simp [List.filter_cons, hx, ht]⟩
    · exact ⟨t, by simp [List.filter_cons, hx, ht]⟩

theorem rank_contract (s : List ScoredDoc) (k : Nat) :
    (rankDocs s k).length ≤ k
    ∧ (rankDocs s k).Pairwise (fun a b => b.score ≤ a.score)
    ∧ (∀ v : Nat, ∃ t, (rankDocs s k).filter (fun d => d.score == v) ++ t
          = s.filter (fun d => d.score == v))
    ∧ (∀ d ∈ rankDocs s k, d ∈ s) := by
  refine ⟨?_, ?_, ?_, ?_⟩
  · rw [rankDocs, List.length_take]
    exact Nat.min_le_left _ _
  · exact (sortDesc_pairwise s).sublist (List.take_sublist k _)
  · intro v
    obtain ⟨t, ht⟩ := filter_take_append (fun d : ScoredDoc => d.score == v) k (sortDesc s)
    refine ⟨t, ?_⟩
    simp only [rankDocs]
    rw [ht, filter_sortDesc]
  · intro d hd
    exact (sortDesc_perm s).mem_iff.mp (List.take_subset k _ hd)

theorem scored_docs_pos (docs : List Doc) (q : String) :
    ∀ d ∈ scored_docs docs q, 0 < d.score := by
  intro d hd
  rcases List.mem_filterMap.mp hd with ⟨a, -, hfa⟩
  dsimp only at hfa
  split at hfa
  next h => cases hfa; exact h
  next => cases hfa

theorem scored_docs_cloud_pos (docs : List Doc) (q : String) :
    ∀ d ∈ scored_docs_cloud docs q, 0 < d.score := by
  intro d hd
  rcases List.mem_filterMap.mp hd with ⟨a, -, hfa⟩
  dsimp only at hfa
  split at hfa
  next h => cases hfa; exact h
  next => cases hfa

/-- Claim C1: for every query and every `k`, `search_documents` (both
variants) returns at most `k` scored fragments, sorted descending by score
with ties kept in original insertion order (the filtered list of any fixed
score value is an order-preserving prefix of the corresponding filtered
`scored_docs` list), contains no fragment of score 0, and returns the
empty list on an empty store.  The function is total, so no exception can
arise. -/
theorem c1_topk_contract :
    ∀ (docs : List Doc) (query : String) (k : Nat),
      ((search_documents docs query k).length ≤ k
        ∧ (search_documents docs query k).Pairwise (fun a b => b.score ≤ a.score)
        ∧ (∀ v : Nat, ∃ t, (search_documents docs query k).filter (fun d => d.score == v) ++ t
              = (scored_docs docs query).filter (fun d => d.score == v))
        ∧ (∀ d ∈ search_documents docs query k, d.score ≠ 0)
        ∧ search_documents [] query k = [])
      ∧ ((search_documents_cloud docs query k).length ≤ k
        ∧ (search_documents_cloud docs query k).Pairwise (fun a b => b.score ≤ a.score)
        ∧ (∀ v : Nat, ∃ t, (search_documents_cloud docs query k).filter (fun d => d.score == v) ++ t
              = (scored_docs_cloud docs query).filter (fun d => d.score == v))
        ∧ (∀ d ∈ search_documents_cloud docs query k, d.score ≠ 0)
        ∧ search_documents_cloud [] query k = []) := by
  intro docs query k
  constructor
  · by_cases hd : docs = []
    · subst hd
      refine ⟨by simp [search_documents], by simp [search_documents], ?_, ?_, rfl⟩
      · intro v
        exact ⟨[], by simp [search_documents, scored_docs]⟩
      · intro d hd
        simp [search_documents] at hd
    · obtain ⟨h1, h2, h3, h4⟩ := rank_contract (scored_docs docs query) k
      rw [search_documents, if_neg hd]
      refine ⟨h1, h2, h3, ?_, rfl⟩
      intro d hmem
      have := scored_docs_pos docs query d (h4 d hmem)
      omega
  · by_cases hd : docs = []
    · subst hd
      refine ⟨by simp [search_documents_cloud], by simp [search_documents_cloud], ?_, ?_, rfl⟩
      · intro v
        exact ⟨[], by simp [search_documents_cloud, scored_docs_cloud]⟩
      · intro d hd
        simp [search_documents_cloud] at hd
    · obtain ⟨h1, h2, h3, h4⟩ := rank_contract (scored_docs_cloud docs query) k
      rw [search_documents_cloud, if_neg hd]
      refine ⟨h1, h2, h3, ?_, rfl⟩
      intro d hmem
      have := scored_docs_cloud_pos docs query d (h4 d hmem)
      omega

/-- Witness for C1 at a concrete store and query, discharging the
membership hypothesis of the no-zero-score conjunct. -/
theorem c1_topk_contract_witness :
    (⟨"wifi network setup guide for beginners", "a.txt", 1, 6⟩ : ScoredDoc)
        ∈ search_documents [⟨"wifi network setup guide for beginners", "a.txt", 1⟩] "wifi" 3
    ∧ (⟨"wifi network setup guide for beginners", "a.txt", 1, 6⟩ : ScoredDoc).score ≠ 0 :=
  ⟨by decide,
    ((c1_topk_contract [⟨"wifi network setup guide for beginners", "a.txt", 1⟩] "wifi" 3).1.2.2.2.1)
      ⟨"wifi network setup guide for beginners", "a.txt", 1, 6⟩ (by decide)⟩

/-- Claim C2: the per-fragment score is 5 when the lowercased query is a
contiguous substring of the lowercased content plus one per occurrence
(duplicates counted each time) in the whitespace-split word list of the
lowercased query of a word longer than 3 characters occurring as a
substring of the lowercased content. -/
theorem c2_fragment_score_formula :
    ∀ (query content : String),
      fragment_score query content
        = (if substrB (pyLower query) (pyLower content) then 5 else 0)
          + (pySplit (pyLower query)).countP
              (fun word => decide (3 < word.length) && substrB word (pyLower content)) := by
  intro query content
  simp [fragment_score, List.countP_eq_length_filter]

/-! ## Billing agent (`BillingAgentB` of `multi_agent_system.py`) -/

/-- `any(word in question_lower for word in kws)`. -/
def anyKw (kws : List String) (s : String) : Bool := kws.any (fun w => substrB w s)

/-- One row of `self.refund_policy` (`multi_agent_system.py:650-654`,
identical in `multi_agent_cloud.py:359-363`). -/
structure PolicyInfo where
  days : Nat
  fee : Rat
  description : String
deriving DecidableEq

/-- The fixed refund-policy table, in insertion order. -/
def refund_policy : List (String × PolicyInfo) :=
  [("standard", ⟨14, mkRat 0 1, "Стандартне відшкодування"⟩),
   ("premium", ⟨7, mkRat 0 1, "Преміум відшкодування"⟩),
   ("express", ⟨3, mkRat 1 10, "Експрес відшкодування (комісія 10%)"⟩)]

/-- `self.refund_policy[t]` (always called with a key of the table). -/
def policyOf (t : String) : PolicyInfo :=
  (((refund_policy.find? (fun p => p.1 == t)).map (fun p => p.2)).getD ⟨14, mkRat 0 1, ""⟩)

/-- Python renders `fee * 100` in an f-string; for the two float values in
the fixed table (`0.0` and `0.1`) this prints `0.0` or `10.0`. -/
def feePctStr (fee : Rat) : String := if fee = 0 then "0.0" else "10.0"

/-- A stored refund request (`self.refund_requests[...]`,
`multi_agent_system.py:754-759`).  `created_at` is the abstract `now`
tick; `estimated_completion` adds the policy's day count. -/
structure RefundInfo where
  rtype : String
  status : String
  created_at : Nat
  estimated_completion : Nat
deriving DecidableEq

/-- A stored invoice (`self.invoices[...]`, `multi_agent_system.py:787-792`). -/
structure InvoiceInfo where
  itype : String
  amount : String
  status : String
  created_at : Nat
deriving DecidableEq

/-- The billing agent's mutable stores.  A Python dict assignment with a
fresh uuid-based key is modelled as appending to an association list. -/
structure BillingState where
  refund_requests : List (String × RefundInfo)
  invoices : List (String × InvoiceInfo)
deriving DecidableEq

def agent_a_name : String := "🤖 Агент А (Технічний спеціаліст)"

def agent_b_name : String := "💼 Агент Б (Спеціаліст з рахунків)"

/-- Refund-type selection of `multi_agent_system.py:748-752`. -/
def refund_type_of (question : String) : String :=
  if substrB "преміум" (pyLower question) then "premium"
  else if substrB "експрес" (pyLower question) || substrB "терміново" (pyLower question)
    then "express"
  else "standard"

/-- The refund record stored for a question at tick `now`. -/
def refund_info (question : String) (now : Nat) : RefundInfo :=
  ⟨refund_type_of question, "pending_form", now,
    now + (policyOf (refund_type_of question)).days⟩

/-- `BillingAgentB.handle_refund_request` (`multi_agent_system.py:744-774`).
`fresh` stands for `uuid.uuid4().hex`. -/
def handle_refund_request (st : BillingState) (question fresh : String) (now : Nat) :
    String × BillingState :=
  let request_id := "REF-" ++ pyUpper (pyTake fresh 8)
  let refund_type := refund_type_of question
  let pol := policyOf refund_type
  let response :=
    agent_b_name ++ ":\n✅ **Запит на відшкодування створено!**\n\n"
      ++ "📋 **Деталі запиту " ++ request_id ++ ":**\n"
      ++ "   • Тип: " ++ pol.description ++ "\n"
      ++ "   • Термін обробки: " ++ toString pol.days ++ " днів\n"
      ++ (if 0 < pol.fee then "   • Комісія: " ++ feePctStr pol.fee ++ "%\n" else "")
      ++ "\n📝 **Наступні кроки:**\n"
      ++ "1. Заповніть форму: https://forms.company/refund/" ++ request_id ++ "\n"
      ++ "2. Надішліть на refunds@company.com\n"
      ++ "3. Статус: /status " ++ request_id ++ "\n"
  (response, { st with refund_requests := st.refund_requests ++ [(request_id, refund_info question now)] })

/-- The leading match of Python's `re.search(r'(\d+[,\d]*)', question)`:
the first digit position, extended greedily over digits and commas. -/
def first_amount : List Char → Option String
  | [] => none
  | c :: rest =>
    if c.isDigit then some ⟨c :: rest.takeWhile (fun d => d.isDigit || d == ',')⟩
    else first_amount rest

/-- The invoice amount chosen by `multi_agent_system.py:780-785`. -/
def invoice_amount (question : String) : String :=
  if substrB "сума" (pyLower question) then
    match first_amount question.data with
    | some a => a
    | none => "1,000.00"
  else "1,000.00"

/-- `BillingAgentB.handle_invoice_request` (`multi_agent_system.py:776-805`). -/
def handle_invoice_request (st : BillingState) (question fresh : String) (now : Nat) :
    String × BillingState :=
  let invoice_id := "INV-" ++ pyUpper (pyTake fresh 6)
  let amount := invoice_amount question
  let response :=
    agent_b_name ++ ":\n📄 **Рахунок " ++ invoice_id ++ " готовий!**\n\n"
      ++ "**Деталі:**\n"
      ++ "   • Сума: " ++ amount ++ " грн\n"
      ++ "   • Термін оплати: 30 днів\n"
      ++ "   • Статус: згенеровано\n"
      ++ "\n**Оплата:**\n"
      ++ "• Онлайн: https://pay.company.com/" ++ invoice_id ++ "\n"
      ++ "• Банк: IBAN UA12 3456 7890 1234 5678 9012 345\n"
      ++ "• Готівка: в офісі компанії\n"
  (response, { st with invoices := st.invoices ++ [(invoice_id, ⟨"standard", amount, "generated", now⟩)] })

/-- `BillingAgentB.explain_refund_policy` (`multi_agent_system.py:807-824`). -/
def explain_refund_policy : String :=
  refund_policy.foldl
    (fun acc p =>
      acc ++ "**" ++ p.2.description ++ ":**\n"
        ++ "   ⏱️ Термін: " ++ toString p.2.days ++ " днів\n"
        ++ (if 0 < p.2.fee then "   💰 Комісія: " ++ feePctStr p.2.fee ++ "%\n" else "")
        ++ "\n")
    (agent_b_name ++ ":\n📋 **Політика відшкодувань**\n\n")
  ++ "**Загальні умови:**\n"
  ++ "• Максимальний термін - 30 днів з покупки\n"
  ++ "• Товар у оригінальному стані\n"
  ++ "• Наявність чека/підтвердження\n"
  ++ "• Для послуг - не більше 50% виконаної роботи\n"

/-- The id-scanning loop of `check_request_status`
(`multi_agent_system.py:828-834`): a matching `REF-` token returns at once
(`break`), a matching `INV-` token is remembered and may be overwritten by
later matches. -/
def status_find_id (st : BillingState) (acc : Option String) : List String → Option String
  | [] => acc
  | w :: rest =>
    if startsWithB w "REF-" && st.refund_requests.any (fun p => p.1 == w) then some w
    else if startsWithB w "INV-" && st.invoices.any (fun p => p.1 == w) then
      status_find_id st (some w) rest
    else status_find_id st acc rest

/-- `BillingAgentB.check_request_status` (`multi_agent_system.py:826-853`).
The stored timestamps are abstract ticks, so Python's `strftime` date
rendering is represented by their decimal form. -/
def check_request_status (st : BillingState) (question : String) : String :=
  match status_find_id st none (pySplit (pyUpper question)) with
  | none => agent_b_name ++ ":\n❌ Запит не знайдено. Надайте номер (REF-... або INV-...)"
  | some found_id =>
    if startsWithB found_id "REF-" then
      let r := (((st.refund_requests.find? (fun p => p.1 == found_id)).map
        (fun p => p.2)).getD ⟨"standard", "", 0, 0⟩)
      agent_b_name ++ ":\n📊 **Статус відшкодування " ++ found_id ++ "**\n\n"
        ++ "   • Статус: " ++ r.status ++ "\n"
        ++ "   • Тип: " ++ (policyOf r.rtype).description ++ "\n"
        ++ "   • Створено: " ++ toString r.created_at ++ "\n"
        ++ "   • Завершення: " ++ toString r.estimated_completion ++ "\n"
    else
      let inv := (((st.invoices.find? (fun p => p.1 == found_id)).map
        (fun p => p.2)).getD ⟨"standard", "", "", 0⟩)
      agent_b_name ++ ":\n📊 **Статус рахунку " ++ found_id ++ "**\n\n"
        ++ "   • Статус: " ++ inv.status ++ "\n"
        ++ "   • Сума: " ++ inv.amount ++ " грн\n"
        ++ "   • Створено: " ++ toString inv.created_at ++ "\n"

/-- `BillingAgentB._try_structured_handling` (`multi_agent_system.py:671-684`). -/
def try_structured_handling (st : BillingState) (question fresh : String) (now : Nat) :
    Option String × BillingState :=
  let question_lower := pyLower question
  if anyKw ["відшкодування", "рефанд", "повернення", "refund"] question_lower then
    let r := handle_refund_request st question fresh now
    (some r.1, r.2)
  else if anyKw ["рахунок", "інвойс", "invoice", "bill"] question_lower then
    let r := handle_invoice_request st question fresh now
    (some r.1, r.2)
  else if anyKw ["політика", "умови", "терміни", "policy"] question_lower then
    (some explain_refund_policy, st)
  else if anyKw ["статус", "status", "перевірити"] question_lower then
    (some (check_request_status st question), st)
  else (none, st)

/-- `BillingAgentB._fallback_response` (`multi_agent_system.py:732-742`). -/
def billing_fallback_response : String :=
  agent_b_name ++ ":\n💼 **Спеціаліст з рахунків**\n\n"
    ++ "Я можу допомогти з:\n"
    ++ "• 🧾 Виставленням рахунків (напишіть \x27рахунок\x27)\n"
    ++ "• 💰 Відшкодуваннями (напишіть \x27відшкодування\x27)\n"
    ++ "• 📋 Політикою відшкодувань (напишіть \x27політика\x27)\n"
    ++ "• 🔍 Перевіркою статусу (напишіть \x27статус\x27)\n\n"
    ++ "Будь ласка, уточніть ваш запит!"

/-- `BillingAgentB.handle_query` (`multi_agent_system.py:656-669` together
with `_handle_with_chatgpt`, lines 686-730).  `gen` is the outcome of the
generative call when a client is configured; the context and message list
fed to it are absorbed by the oracle. -/
def billing_handle_query (gen : Option String) (st : BillingState)
    (question fresh : String) (now : Nat) : String × BillingState :=
  match try_structured_handling st question fresh now with
  | (some r, st2) => (r, st2)
  | (none, st2) =>
    match gen with
    | some g =>
      let response := agent_b_name ++ ":\n🤖 **Відповідь з використанням AI:**\n\n" ++ g
      let response :=
        if anyKw ["відшкодування", "рефанд"] (pyLower question) then
          response ++ "\n\n💡 **Швидкі дії:**\n"
            ++ "• Створити запит на відшкодування: напишіть \x27відшкодування\x27\n"
            ++ "• Дізнатись політику: напишіть \x27політика відшкодувань\x27"
        else response
      (response, st2)
    | none => (billing_fallback_response, st2)

/-! ## Technical agent (`TechnicalAgentA.handle_query`,
`multi_agent_system.py:593-635`) -/

/-- `TechnicalAgentA.handle_query`.  `gen` is the outcome of the
generative call when a client is configured (the context string built from
the retrieved fragments is absorbed by that oracle). -/
def tech_handle_query (gen : Option String) (docs : List Doc) (question : String) : String :=
  let relevant_docs := search_documents docs question 3
  match gen with
  | none =>
    if relevant_docs.isEmpty then
      agent_a_name ++ ":\n❌ Не знайшов відповідної інформації в технічній документації."
    else
      relevant_docs.foldl
        (fun acc doc => acc ++ "**" ++ doc.source ++ ":** " ++ pyTake doc.content 300 ++ "...\n\n")
        (agent_a_name ++ ":\n🔍 **Відповідь на основі технічної документації:**\n\n")
  | some g =>
    let response := agent_a_name ++ ":\n🤖 **Відповідь з використанням AI:**\n\n" ++ g
    if relevant_docs.isEmpty then response
    else
      response ++ "\n\n📚 **Використані джерела:**"
        ++ relevant_docs.foldl
            (fun acc doc => acc ++ "\n• " ++ doc.source ++ " (розділ " ++ toString doc.section_id ++ ")")
            ""

/-! ## Intent router (`AgentDispatcher.classify_intent`,
`multi_agent_system.py:867-935`) -/

/-- The billing keyword list of `multi_agent_system.py:871-876`. -/
def billing_keywords : List String :=
  ["рахунок", "інвойс", "оплата", "платіж", "відшкодування", "рефанд",
   "повернення", "гроші", "кошти", "ціна", "вартість", "тариф", "план",
   "оплатити", "заплатити", "bill", "invoice", "payment", "refund",
   "money", "cost", "price", "fee", "комісія", "перерахування"]

/-- The technical keyword list of `multi_agent_system.py:878-884`. -/
def tech_keywords : List String :=
  ["компьютер", "ноутбук", "мережа", "інтернет", "wi-fi", "ip", "mac",
   "драйвер", "програмне", "апаратне", "технічний", "налаштування",
   "підключення", "з\x27єднання", "сервер", "роутер", "модем", "кабель",
   "computer", "laptop", "network", "internet", "wifi", "driver",
   "software", "hardware", "technical", "setup", "configure"]

/-- `billing_score` of `classify_intent`: the number of billing keywords
occurring in the lowercased question. -/
def billing_score (question : String) : Nat :=
  billing_keywords.countP (fun w => substrB w (pyLower question))

/-- `tech_score` of `classify_intent`. -/
def tech_score (question : String) : Nat :=
  tech_keywords.countP (fun w => substrB w (pyLower question))

/-- A conversation-history entry of the ChatGPT-integrated dispatcher
(`multi_agent_system.py:961-967`). -/
structure SysEntry where
  timestamp : Nat
  user_message : String
  agent_response : String
  agent : String
  confidence : Rat
deriving DecidableEq

/-- Steps 5-6 of `classify_intent` (`multi_agent_system.py:901-907`):
the previous turn's agent with confidence 0.7 when the history is
non-empty and records an agent tag, else the fixed `("billing", 0.5)`. -/
def classify_default (history : List SysEntry) : String × Rat :=
  match history.getLast? with
  | some e => if e.agent = "" then ("billing", mkRat 1 2) else (e.agent, mkRat 7 10)
  | none => ("billing", mkRat 1 2)

/-- `AgentDispatcher._classify_with_chatgpt` (`multi_agent_system.py:909-935`).
`outcome` is the result of the external call: `Except.error` when the call
raises (swallowed by the bare `except`), `Except.ok` with the returned
text otherwise.  The function is total: no error ever escapes. -/
def classify_with_chatgpt (outcome : Except String String) : String × Rat :=
  match outcome with
  | Except.error _ => ("billing", mkRat 1 2)
  | Except.ok response =>
    let intent := pyLower (pyStrip response)
    if intent = "technical" ∨ intent = "billing" then (intent, mkRat 19 20)
    else ("billing", mkRat 1 2)

/-- `AgentDispatcher.classify_intent` (`multi_agent_system.py:867-907`).
`client` is `none` when no OpenAI client is configured, else the outcome
of this turn's classification call. -/
def classify_intent (client : Option (Except String String)) (history : List SysEntry)
    (question : String) : String × Rat :=
  let bscore := billing_score question
  let tscore := tech_score question
  if tscore * 2 < bscore then ("billing", mkRat 9 10)
  else if bscore * 2 < tscore then ("technical", mkRat 9 10)
  else
    match client with
    | some outcome =>
      if 0 < bscore ∨ 0 < tscore then classify_with_chatgpt outcome
      else classify_default history
    | none => classify_default history

/-! ## Dispatcher (`AgentDispatcher.handle_message`,
`multi_agent_system.py:937-973`) -/

/-- The whole dispatcher state owned by one `AgentDispatcher`. -/
structure SysState where
  docs : List Doc
  billing : BillingState
  history : List SysEntry
deriving DecidableEq

/-- The history cap of `multi_agent_system.py:970-971` (identically
`multi_agent_cloud.py:503-504`): append, then keep the last 10 entries
(`history[-10:]`) when the length exceeds 10. -/
def append_bounded {α : Type} (h : List α) (e : α) : List α :=
  let h2 := h ++ [e]
  if 10 < h2.length then h2.drop (h2.length - 10) else h2

/-- The outcomes of the (up to three) generative calls one turn can make
when an OpenAI client is configured. -/
structure SysOracle where
  classify : Except String String
  tech_gen : String
  bill_gen : String

/-- The fixed clarification prompt of `multi_agent_system.py:947-950`. -/
def clarify_message : String :=
  "❓ **Уточніть, будь ласка:**\n\n"
    ++ "🤖 **Технічні питання** (комп\x27ютери, мережі, техніка)\n"
    ++ "💼 **Фінансові питання** (рахунки, оплата, відшкодування)\n\n"
    ++ "Що вас цікавить?"

/-- `AgentDispatcher.handle_message` (`multi_agent_system.py:937-973`).
Returns the reply together with the dispatcher state after the turn. -/
def handle_message (client : Option SysOracle) (st : SysState)
    (user_message fresh : String) (now : Nat) : String × SysState :=
  if pyStrip user_message = "" then ("Будь ласка, введіть ваше питання.", st)
  else
    let ic := classify_intent (client.map (fun c => c.classify)) st.history user_message
    if ic.2 < mkRat 3 5 then (clarify_message, st)
    else if ic.1 = "technical" then
      let response := tech_handle_query (client.map (fun c => c.tech_gen)) st.docs user_message
      (response,
        { st with history := append_bounded st.history ⟨now, user_message, response, "technical", ic.2⟩ })
    else
      let r := billing_handle_query (client.map (fun c => c.bill_gen)) st.billing user_message fresh now
      (r.1,
        { st with billing := r.2,
                  history := append_bounded st.history ⟨now, user_message, r.1, "billing", ic.2⟩ })

/-- One dispatcher turn's inputs: client-call outcomes, the user message,
the fresh uuid hex and the clock tick. -/
structure SysTurn where
  oracle : Option SysOracle
  message : String
  fresh : String
  now : Nat

/-- Any sequence of `handle_message` calls, threading the state. -/
def run_sys (ts : List SysTurn) (st : SysState) : SysState :=
  match ts with
  | [] => st
  | t :: rest => run_sys rest (handle_message t.oracle st t.message t.fresh t.now).2

/-! ## Cloud variant (`multi_agent_cloud.py`): agents and dispatcher -/

/-- A stored refund request of the cloud variant
(`multi_agent_cloud.py:412-416`; no estimated completion, status `pending`). -/
structure CloudRefundInfo where
  rtype : String
  status : String
  created_at : Nat
deriving DecidableEq

/-- A stored invoice of the cloud variant (`multi_agent_cloud.py:434-438`). -/
structure CloudInvoiceInfo where
  amount : String
  status : String
  created_at : Nat
deriving DecidableEq

/-- The cloud billing agent's stores. -/
structure CloudBillingState where
  refund_requests : List (String × CloudRefundInfo)
  invoices : List (String × CloudInvoiceInfo)
deriving DecidableEq

/-- Refund-type selection of `multi_agent_cloud.py:405-410` (no
`терміново` alternative here). -/
def refund_type_of_cloud (question : String) : String :=
  if substrB "преміум" (pyLower question) then "premium"
  else if substrB "експрес" (pyLower question) then "express"
  else "standard"

/-- `BillingAgentB.handle_refund_request` (`multi_agent_cloud.py:402-429`). -/
def handle_refund_request_cloud (st : CloudBillingState) (question fresh : String) (now : Nat) :
    String × CloudBillingState :=
  let request_id := "REF-" ++ pyUpper (pyTake fresh 6)
  let refund_type := refund_type_of_cloud question
  let pol := policyOf refund_type
  let response :=
    agent_b_name ++ ":\n✅ **Запит на відшкодування створено!**\n\n"
      ++ "📋 **Деталі " ++ request_id ++ ":**\n"
      ++ "• Тип: " ++ pol.description ++ "\n"
      ++ "• Термін: " ++ toString pol.days ++ " днів\n"
      ++ "• Комісія: " ++ feePctStr pol.fee ++ "%\n"
      ++ "\n📝 **Наступні кроки:**\n"
      ++ "1. Заповніть форму на сайті\n"
      ++ "2. Надішліть документи\n"
      ++ "3. Чекайте підтвердження"
  (response,
    { st with refund_requests :=
        st.refund_requests ++ [(request_id, ⟨refund_type, "pending", now⟩)] })

/-- `BillingAgentB.handle_invoice_request` (`multi_agent_cloud.py:431-446`). -/
def handle_invoice_request_cloud (st : CloudBillingState) (fresh : String) (now : Nat) :
    String × CloudBillingState :=
  let invoice_id := "INV-" ++ pyUpper (pyTake fresh 6)
  let response :=
    agent_b_name ++ ":\n📄 **Рахунок " ++ invoice_id ++ " готовий!**\n\n"
      ++ "💳 **Оплата:**\n"
      ++ "• Онлайн: https://pay.company.com/" ++ invoice_id ++ "\n"
      ++ "• Банк: IBAN UA12 3456 7890 1234 5678 9012 345\n"
      ++ "• Термін: 30 днів"
  (response, { st with invoices := st.invoices ++ [(invoice_id, ⟨"1,000.00", "generated", now⟩)] })

/-- `BillingAgentB.explain_refund_policy` (`multi_agent_cloud.py:448-456`). -/
def explain_refund_policy_cloud : String :=
  refund_policy.foldl
    (fun acc p =>
      acc ++ "**" ++ p.2.description ++ ":** " ++ toString p.2.days ++ " днів"
        ++ (if 0 < p.2.fee then " (комісія " ++ feePctStr p.2.fee ++ "%)" else "")
        ++ "\n")
    (agent_b_name ++ ":\n📋 **Політика відшкодувань**\n\n")

/-- `BillingAgentB._try_structured_handling` (`multi_agent_cloud.py:389-400`):
only refund, invoice and policy branches exist in this variant. -/
def try_structured_handling_cloud (st : CloudBillingState) (question fresh : String)
    (now : Nat) : Option String × CloudBillingState :=
  let question_lower := pyLower question
  if anyKw ["відшкодування", "рефанд", "повернення", "refund"] question_lower then
    let r := handle_refund_request_cloud st question fresh now
    (some r.1, r.2)
  else if anyKw ["рахунок", "інвойс", "invoice", "bill"] question_lower then
    let r := handle_invoice_request_cloud st fresh now
    (some r.1, r.2)
  else if anyKw ["політика", "умови", "терміни", "policy"] question_lower then
    (some explain_refund_policy_cloud, st)
  else (none, st)

/-- `BillingAgentB.handle_query` (`multi_agent_cloud.py:365-387`).  `ai`
is the outcome of this turn's generative call. -/
def billing_handle_query_cloud (st : CloudBillingState) (question fresh : String)
    (now : Nat) (ai : String) : String × CloudBillingState :=
  match try_structured_handling_cloud st question fresh now with
  | (some r, st2) => (r, st2)
  | (none, st2) => (agent_b_name ++ ":\n" ++ ai, st2)

/-- `TechnicalAgentA.handle_query` (`multi_agent_cloud.py:328-349`).  The
top-2 retrieval feeds the context given to the generative call, whose
outcome is the oracle `ai`. -/
def tech_handle_query_cloud (docs : List Doc) (question : String) (ai : String) : String :=
  let _relevant_docs := search_documents_cloud docs question 2
  agent_a_name ++ ":\n" ++ ai

/-- A cloud-variant history entry (`multi_agent_cloud.py:496-501`; no
confidence field in this variant). -/
structure CloudEntry where
  timestamp : Nat
  user_message : String
  agent_response : String
  agent : String
deriving DecidableEq

/-- The cloud dispatcher state. -/
structure CloudState where
  docs : List Doc
  billing : CloudBillingState
  history : List CloudEntry
deriving DecidableEq

/-- The technical keyword list of `multi_agent_cloud.py:469-470`. -/
def cloud_tech_keywords : List String :=
  ["компьютер", "ноутбук", "мережа", "інтернет", "wi-fi", "ip", "mac", "драйвер",
   "software", "hardware"]

/-- The billing keyword list of `multi_agent_cloud.py:471`. -/
def cloud_billing_keywords : List String :=
  ["рахунок", "інвойс", "оплата", "відшкодування", "рефанд", "гроші", "кошти", "ціна"]

def cloud_tech_score (question : String) : Nat :=
  cloud_tech_keywords.countP (fun w => substrB w (pyLower question))

def cloud_billing_score (question : String) : Nat :=
  cloud_billing_keywords.countP (fun w => substrB w (pyLower question))

/-- `AgentDispatcher.classify_intent` (`multi_agent_cloud.py:467-482`):
pure keyword vote; ties always give `("technical", 0.5)`. -/
def classify_intent_cloud (question : String) : String × Rat :=
  let tscore := cloud_tech_score question
  let bscore := cloud_billing_score question
  if bscore < tscore then ("technical", mkRat 4 5)
  else if tscore < bscore then ("billing", mkRat 4 5)
  else ("technical", mkRat 1 2)

/-- `AgentDispatcher.handle_message` (`multi_agent_cloud.py:484-506`).
`ai_tech` / `ai_bill` are the outcomes of the generative call the chosen
responder would make this turn. -/
def handle_message_cloud (st : CloudState) (user_message fresh : String) (now : Nat)
    (ai_tech ai_bill : String) : String × CloudState :=
  if pyStrip user_message = "" then ("Будь ласка, введіть ваше питання.", st)
  else
    let ic := classify_intent_cloud user_message
    if ic.1 = "technical" then
      let response := tech_handle_query_cloud st.docs user_message ai_tech
      (response,
        { st with history := append_bounded st.history ⟨now, user_message, response, ic.1⟩ })
    else
      let r := billing_handle_query_cloud st.billing user_message fresh now ai_bill
      (r.1,
        { st with billing := r.2,
                  history := append_bounded st.history ⟨now, user_message, r.1, ic.1⟩ })

/-- One cloud-dispatcher turn's inputs. -/
structure CloudTurn where
  message : String
  fresh : String
  now : Nat
  ai_tech : String
  ai_bill : String

/-- Any sequence of cloud `handle_message` calls. -/
def run_cloud (ts : List CloudTurn) (st : CloudState) : CloudState :=
  match ts with
  | [] => st
  | t :: rest =>
    run_cloud rest (handle_message_cloud st t.message t.fresh t.now t.ai_tech t.ai_bill).2

/-! ## Fast local client and hybrid client
(`FastLocalClient`, `HybridAIClient` of `multi_agent_cloud.py`) -/

/-- A chat message (`{"role": ..., "content": ...}`). -/
structure Msg where
  role : String
  content : String
deriving DecidableEq

/-- The instant-template dictionary `self.responses` of
`multi_agent_cloud.py:170-184`, in insertion order. -/
def fast_responses : List (String × String) :=
  [("ip", "🌐 **IP-адреса (Internet Protocol)** - це унікальна числова адреса, яка ідентифікує пристрій в мережі. IP-адреси використовуються для комунікації між пристроями в інтернеті та локальних мережах.\n\n**Типи IP-адрес:**\n• IPv4: 192.168.1.1 (32 біти)\n• IPv6: 2001:0db8:85a3:0000:0000:8a2e:0370:7334 (128 біт)\n\n**Види:**\n• Публічні - для інтернету\n• Приватні - для локальних мереж\n• Статичні - постійні\n• Динамічні - що змінюються"),
   ("wifi", "📡 **Wi-Fi** - це технологія бездротового мережевого зв\x27язку, що дозволяє пристроям підключатися до інтернету та локальної мережі без кабелів.\n\n**Основні характеристики:**\n• Стандарти: 802.11a/b/g/n/ac/ax\n• Частоти: 2.4 GHz та 5 GHz\n• Безпекові протоколи: WEP, WPA, WPA2, WPA3"),
   ("компьютер", "💻 **Комп\x27ютер** - це електронний пристрій для обробки інформації. Основні компоненти:\n• Процесор (CPU) - мозок комп\x27ютера\n• Оперативна пам\x27ять (RAM) - тимчасова пам\x27ять\n• Жорсткий диск (HDD/SSD) - постійне сховище\n• Материнська плата - основна плата\n• Блок живлення - забезпечує енергією"),
   ("мережа", "🔗 **Мережа** - це система взаємопов\x27язаних пристроїв для обміну інформацією. Типи мереж:\n• LAN (Local Area Network) - локальна\n• WAN (Wide Area Network) - глобальна\n• WLAN (Wireless LAN) - бездротова\n• VPN (Virtual Private Network) - віртуальна приватна"),
   ("драйвер", "⚙️ **Драйвер** - це програмне забезпечення, яке дозволяє операційній системі взаємодіяти з апаратним забезпеченням. Без драйверів пристрої не працюватимуть коректно."),
   ("рахунок", "🧾 **Рахунок/Інвойс** - це документ, що містить інформацію про послуги або товари та їх вартість. Для створення рахунку напишіть \x27створити рахунок\x27."),
   ("відшкодування", "💰 **Відшкодування** - це повернення коштів за послуги або товари. Типи відшкодувань:\n• Стандартне - 14 днів\n• Преміум - 7 днів\n• Експрес - 3 дні (комісія 10%)")]

/-- The fallback word lists of `_get_fallback_response`
(`multi_agent_cloud.py:203-204`). -/
def fast_fallback_tech_words : List String :=
  ["ip", "wifi", "network", "computer", "драйвер", "мереж", "компьютер"]

def fast_fallback_billing_words : List String :=
  ["рахунок", "відшкодування", "оплата", "invoice", "payment", "refund"]

/-- The lowercased content of the last `user` message, or `""`
(`multi_agent_cloud.py:188-192`). -/
def last_user_message (messages : List Msg) : String :=
  match messages.reverse.find? (fun m => m.role == "user") with
  | some m => pyLower m.content
  | none => ""

/-- `FastLocalClient._get_fallback_response` (`multi_agent_cloud.py:201-211`). -/
def fast_fallback_response (question : String) : String :=
  if anyKw fast_fallback_tech_words question then
    "🤖 **Технічна підтримка:**\n\nДля детальних технічних консультацій використовується хмарна AI модель."
  else if anyKw fast_fallback_billing_words question then
    "💼 **Фінансові питання:**\n\nДля обробки фінансових запитів використовуйте структуровані команди: \x27рахунок\x27, \x27відшкодування\x27, \x27політика\x27."
  else
    "❓ **Питання не розпізнано**\n\nСпробуйте одне з цих питань:\n• Що таке IP-адреса?\n• Як працює Wi-Fi?\n• Створити рахунок\n• Політика відшкодувань"

/-- `FastLocalClient.generate_response` (`multi_agent_cloud.py:186-199`). -/
def fast_generate (messages : List Msg) : String :=
  let user_message := last_user_message messages
  match fast_responses.find? (fun kv => substrB kv.1 user_message) with
  | some kv => "🤖 **Швидка відповідь:**\n\n" ++ kv.2
  | none => fast_fallback_response user_message

/-- `HybridAIClient.generate_response` (`multi_agent_cloud.py:239-254`).
`cloud_available` is `self.cloud_client.available`, `selected_model` its
chosen model name, and `cloud_resp` the string the cloud call would return
for these messages.  The second component records whether the cloud
backend is actually invoked (the network call on line 249). -/
def hybrid_generate (cloud_available : Bool) (selected_model cloud_resp : String)
    (messages : List Msg) : String × Bool :=
  let fast_response := fast_generate messages
  if startsWithB fast_response "❓" = false then (fast_response, false)
  else if cloud_available then
    if startsWithB cloud_resp "❌" = false then
      ("🤖 **Детальна відповідь ("
          ++ (if substrB ":cloud" selected_model then "хмарної моделі" else "локальної моделі")
          ++ "):**\n\n" ++ cloud_resp, true)
    else (fast_response, true)
  else (fast_response, false)

/-! ## History-cap lemmas -/

theorem append_bounded_length {α : Type} (h : List α) (e : α) :
    (append_bounded h e).length = min (h.length + 1) 10 := by
  simp only [append_bounded]
  split
  next hgt =>
    rw [List.length_drop]
    simp only [List.length_append, List.length_cons, List.length_nil] at hgt ⊢
    omega
  next hle =>
    simp only [List.length_append, List.length_cons, List.length_nil] at hle ⊢
    omega

theorem append_bounded_tail {α : Type} (h : List α) (e : α) :
    ∃ s, s ++ append_bounded h e = h ++ [e] := by
  simp only [append_bounded]
  split
  · exact ⟨(h ++ [e]).take ((h ++ [e]).length - 10), List.take_append_drop _ _⟩
  · exact ⟨[], rfl⟩

theorem append_bounded_eq_append {α : Type} (h : List α) (e : α) (hlt : h.length < 10) :
    append_bounded h e = h ++ [e] := by
  simp only [append_bounded]
  rw [if_neg]
  simp only [List.length_append, List.length_cons, List.length_nil]
  omega

theorem handle_message_history_le (client : Option SysOracle) (st : SysState)
    (msg fresh : String) (now : Nat) (h : st.history.length ≤ 10) :
    (handle_message client st msg fresh now).2.history.length ≤ 10 := by
  by_cases h1 : pyStrip msg = ""
  · simpa [handle_message, h1] using h
  · by_cases h2 : (classify_intent (client.map (fun c => c.classify)) st.history msg).2 < mkRat 3 5
    · simpa [handle_message, h1, h2] using h
    · by_cases h3 : (classify_intent (client.map (fun c => c.classify)) st.history msg).1 = "technical"
      · simp [handle_message, h1, h2, h3, append_bounded_length]
      · simp [handle_message, h1, h2, h3, append_bounded_length]

theorem handle_message_cloud_history_le (st : CloudState) (msg fresh : String) (now : Nat)
    (ai_tech ai_bill : String) (h : st.history.length ≤ 10) :
    (handle_message_cloud st msg fresh now ai_tech ai_bill).2.history.length ≤ 10 := by
  by_cases h1 : pyStrip msg = ""
  · simpa [handle_message_cloud, h1] using h
  · by_cases h2 : (classify_intent_cloud msg).1 = "technical"
    · simp [handle_message_cloud, h1, h2, append_bounded_length]
    · simp [handle_message_cloud, h1, h2, append_bounded_length]

/-- Claim C3: after any sequence of `handle_message` calls (either
variant), the conversation history holds at most 10 entries; one bounded
append keeps the new list a tail of `history ++ [entry]` (so only oldest
entries are dropped, and the most recent ones keep their order), its
length is `min (n+1) 10`, and under the cap it is a plain append. -/
theorem c3_history_bounded_fifo :
    (∀ (ts : List SysTurn) (st : SysState), st.history.length ≤ 10 →
        (run_sys ts st).history.length ≤ 10)
    ∧ (∀ (ts : List CloudTurn) (st : CloudState), st.history.length ≤ 10 →
        (run_cloud ts st).history.length ≤ 10)
    ∧ (∀ (α : Type) (h : List α) (e : α),
        (∃ s, s ++ append_bounded h e = h ++ [e])
        ∧ (append_bounded h e).length = min (h.length + 1) 10
        ∧ (h.length < 10 → append_bounded h e = h ++ [e])) := by
  refine ⟨?_, ?_, ?_⟩
  · intro ts
    induction ts with
    | nil => intro st h; simpa [run_sys] using h
    | cons t rest ih =>
      intro st h
      exact ih _ (handle_message_history_le t.oracle st t.message t.fresh t.now h)
  · intro ts
    induction ts with
    | nil => intro st h; simpa [run_cloud] using h
    | cons t rest ih =>
      intro st h
      exact ih _ (handle_message_cloud_history_le st t.message t.fresh t.now t.ai_tech t.ai_bill h)
  · intro α h e
    exact ⟨append_bounded_tail h e, append_bounded_length h e, append_bounded_eq_append h e⟩

/-- Witness for C3: a concrete run and a concrete over-cap append. -/
theorem c3_history_bounded_fifo_witness :
    (run_sys [⟨none, "привіт", "a", 0⟩] ⟨[], ⟨[], []⟩, []⟩).history.length ≤ 10
    ∧ append_bounded [0, 1, 2, 3, 4, 5, 6, 7, 8, 9] (10 : Nat)
        = [1, 2, 3, 4, 5, 6, 7, 8, 9, 10] := by
  constructor
  · exact c3_history_bounded_fifo.1 [⟨none, "привіт", "a", 0⟩] ⟨[], ⟨[], []⟩, []⟩ (by decide)
  · decide

/-- Counterexample to C4 as stated: on a message with both keyword counts
zero and a non-empty history, `classify_intent` returns the previous
turn's intent with confidence 0.7, not 0.5. -/
theorem c4_tie_confidence_counterexample :
    billing_score "привіт" = 0
    ∧ tech_score "привіт" = 0
    ∧ classify_intent none [⟨0, "x", "y", "technical", mkRat 9 10⟩] "привіт"
        = ("technical", mkRat 7 10)
    ∧ (classify_intent none [⟨0, "x", "y", "technical", mkRat 7 10⟩] "привіт").2 ≠ mkRat 1 2 := by
  decide

/-- Claim C4 (amended): when the billing and technical keyword counts are
zero or tied and no external classifier resolves the tie, the ChatGPT
dispatcher returns the previous turn's intent with confidence 0.7 when
the history is non-empty (its last entry carrying a non-empty agent tag),
otherwise the fixed `("billing", 0.5)`; the cloud dispatcher always
returns the fixed `("technical", 0.5)` on a tie. -/
theorem c4_tie_default_amended :
    (∀ (client : Option (Except String String)) (history : List SysEntry) (q : String),
      billing_score q = tech_score q →
      (client = none ∨ (billing_score q = 0 ∧ tech_score q = 0)) →
        ((history = [] → classify_intent client history q = ("billing", mkRat 1 2))
        ∧ (∀ e, history.getLast? = some e → e.agent ≠ "" →
            classify_intent client history q = (e.agent, mkRat 7 10))))
    ∧ (∀ q : String, cloud_billing_score q = cloud_tech_score q →
        classify_intent_cloud q = ("technical", mkRat 1 2)) := by
  constructor
  · intro client history q htie hcl
    have h1 : ¬ (tech_score q * 2 < billing_score q) := by omega
    have h2 : ¬ (billing_score q * 2 < tech_score q) := by omega
    constructor
    · intro hh
      subst hh
      rcases hcl with rfl | ⟨hb0, ht0⟩
      · simp [classify_intent, h1, h2, classify_default]
      · cases client with
        | none => simp [classify_intent, h1, h2, classify_default]
        | some o => simp [classify_intent, h1, h2, classify_default, hb0, ht0]
    · intro e he hne
      rcases hcl with rfl | ⟨hb0, ht0⟩
      · simp [classify_intent, h1, h2, classify_default, he, hne]
      · cases client with
        | none => simp [classify_intent, h1, h2, classify_default, he, hne]
        | some o => simp [classify_intent, h1, h2, classify_default, he, hne, hb0, ht0]
  · intro q htie
    have h1 : ¬ (cloud_billing_score q < cloud_tech_score q) := by omega
    have h2 : ¬ (cloud_tech_score q < cloud_billing_score q) := by omega
    simp [classify_intent_cloud, h1, h2]

/-- Witness for the amended C4 at concrete no-keyword inputs. -/
theorem c4_tie_default_amended_witness :
    classify_intent none [] "привіт" = ("billing", mkRat 1 2)
    ∧ classify_intent_cloud "привіт" = ("technical", mkRat 1 2) :=
  ⟨(c4_tie_default_amended.1 none [] "привіт" (by decide) (Or.inl rfl)).1 rfl,
    c4_tie_default_amended.2 "привіт" (by decide)⟩

/-- The failure path of `_classify_with_chatgpt`: a raised error or an
unrecognized token yields the fixed low-confidence default. -/
theorem classify_with_chatgpt_fallback (outcome : Except String String)
    (hs : ∀ s, outcome = Except.ok s →
        ¬ (pyLower (pyStrip s) = "technical" ∨ pyLower (pyStrip s) = "billing")) :
    classify_with_chatgpt outcome = ("billing", mkRat 1 2) := by
  cases outcome with
  | error e => rfl
  | ok s =>
    simp only [classify_with_chatgpt]
    rw [if_neg (hs s rfl)]

/-- Claim C6: when the external classifier call raises any error or
returns a token other than `technical` / `billing` (case-insensitively,
after stripping), classification never propagates the failure — both
`_classify_with_chatgpt` and, on the delegation path, `classify_intent`
are total and return the fixed fallback `("billing", 0.5)`. -/
theorem c6_classifier_failure_silent_fallback :
    (∀ outcome : Except String String,
      (∀ s, outcome = Except.ok s →
          ¬ (pyLower (pyStrip s) = "technical" ∨ pyLower (pyStrip s) = "billing")) →
        classify_with_chatgpt outcome = ("billing", mkRat 1 2))
    ∧ (∀ (outcome : Except String String) (history : List SysEntry) (q : String),
        ¬ (tech_score q * 2 < billing_score q) →
        ¬ (billing_score q * 2 < tech_score q) →
        (0 < billing_score q ∨ 0 < tech_score q) →
        (∀ s, outcome = Except.ok s →
            ¬ (pyLower (pyStrip s) = "technical" ∨ pyLower (pyStrip s) = "billing")) →
        classify_intent (some outcome) history q = ("billing", mkRat 1 2)) := by
  constructor
  · intro outcome hs
    exact classify_with_chatgpt_fallback outcome hs
  · intro outcome history q h1 h2 h3 hs
    simp only [classify_intent]
    rw [if_neg h1, if_neg h2, if_pos h3]
    exact classify_with_chatgpt_fallback outcome hs

/-- Witness for C6 at a raising oracle and an ambiguous message. -/
theorem c6_classifier_failure_silent_fallback_witness :
    classify_intent (some (Except.error "boom")) [] "оплата інтернет" = ("billing", mkRat 1 2) :=
  c6_classifier_failure_silent_fallback.2 (Except.error "boom") [] "оплата інтернет"
    (by decide) (by decide) (by decide) (fun s hs => nomatch hs)

/-- Claim C7: `_try_structured_handling` tests its categories in the
fixed order refund → invoice → policy → status on each fresh call; a
refund keyword always wins (a refund request is appended, invoices are
untouched), an invoice keyword wins only without refund keywords, and so
on; in particular a message containing both `рахунок` and
`відшкодування` creates a refund request and no invoice. -/
theorem c7_billing_structured_priority :
    ∀ (st : BillingState) (q fresh : String) (now : Nat),
      (anyKw ["відшкодування", "рефанд", "повернення", "refund"] (pyLower q) = true →
        (try_structured_handling st q fresh now).1.isSome = true
        ∧ (try_structured_handling st q fresh now).2.refund_requests
            = st.refund_requests ++ [("REF-" ++ pyUpper (pyTake fresh 8), refund_info q now)]
        ∧ (try_structured_handling st q fresh now).2.invoices = st.invoices)
      ∧ (anyKw ["відшкодування", "рефанд", "повернення", "refund"] (pyLower q) = false →
          anyKw ["рахунок", "інвойс", "invoice", "bill"] (pyLower q) = true →
          (try_structured_handling st q fresh now).1.isSome = true
          ∧ (try_structured_handling st q fresh now).2.invoices
              = st.invoices
                ++ [("INV-" ++ pyUpper (pyTake fresh 6),
                     ⟨"standard", invoice_amount q, "generated", now⟩)]
          ∧ (try_structured_handling st q fresh now).2.refund_requests = st.refund_requests)
      ∧ (anyKw ["відшкодування", "рефанд", "повернення", "refund"] (pyLower q) = false →
          anyKw ["рахунок", "інвойс", "invoice", "bill"] (pyLower q) = false →
          anyKw ["політика", "умови", "терміни", "policy"] (pyLower q) = true →
          try_structured_handling st q fresh now = (some explain_refund_policy, st))
      ∧ (anyKw ["відшкодування", "рефанд", "повернення", "refund"] (pyLower q) = false →
          anyKw ["рахунок", "інвойс", "invoice", "bill"] (pyLower q) = false →
          anyKw ["політика", "умови", "терміни", "policy"] (pyLower q) = false →
          anyKw ["статус", "status", "перевірити"] (pyLower q) = true →
          try_structured_handling st q fresh now = (some (check_request_status st q), st))
      ∧ (anyKw ["відшкодування", "рефанд", "повернення", "refund"] (pyLower q) = false →
          anyKw ["рахунок", "інвойс", "invoice", "bill"] (pyLower q) = false →
          anyKw ["політика", "умови", "терміни", "policy"] (pyLower q) = false →
          anyKw ["статус", "status", "перевірити"] (pyLower q) = false →
          try_structured_handling st q fresh now = (none, st))
      ∧ (substrB "рахунок" (pyLower q) = true → substrB "відшкодування" (pyLower q) = true →
          (try_structured_handling st q fresh now).2.refund_requests
            = st.refund_requests ++ [("REF-" ++ pyUpper (pyTake fresh 8), refund_info q now)]
          ∧ (try_structured_handling st q fresh now).2.invoices = st.invoices) := by
  intro st q fresh now
  refine ⟨?_, ?_, ?_, ?_, ?_, ?_⟩
  · intro hr
    simp [try_structured_handling, hr, handle_refund_request]
  · intro hr hi
    simp [try_structured_handling, hr, hi, handle_invoice_request]
  · intro hr hi hp
    simp [try_structured_handling, hr, hi, hp]
  · intro hr hi hp hs
    simp [try_structured_handling, hr, hi, hp, hs]
  · intro hr hi hp hs
    simp [try_structured_handling, hr, hi, hp, hs]
  · intro hrah hvid
    have hr : anyKw ["відшкодування", "рефанд", "повернення", "refund"] (pyLower q) = true := by
      simp [anyKw, hvid]
    simp [try_structured_handling, hr, handle_refund_request]

/-- Witness for C7 at a message carrying both an invoice and a refund
keyword: the refund branch wins. -/
theorem c7_billing_structured_priority_witness :
    (try_structured_handling ⟨[], []⟩ "рахунок і відшкодування" "abcdef1234" 0).2.refund_requests
      = [("REF-ABCDEF12", refund_info "рахунок і відшкодування" 0)]
    ∧ (try_structured_handling ⟨[], []⟩ "рахунок і відшкодування" "abcdef1234" 0).2.invoices = [] := by
  have h := (c7_billing_structured_priority ⟨[], []⟩ "рахунок і відшкодування" "abcdef1234" 0).2.2.2.2.2
    (by decide) (by decide)
  exact ⟨by rw [h.1]; decide, h.2⟩

/-- Claim C8: with no backend configured and an empty document store, the
input `Що таке Wi-Fi?` is routed to the technical responder (one `wi-fi`
keyword, so intent `technical` at confidence 0.9) and yields its fixed
no-information reply; the model is total, so no exception arises, and the
turn is recorded in the history. -/
theorem c8_wifi_no_backend_no_docs :
    handle_message none ⟨[], ⟨[], []⟩, []⟩ "Що таке Wi-Fi?" "abc" 0
      = ("🤖 Агент А (Технічний спеціаліст):\n❌ Не знайшов відповідної інформації в технічній документації.",
         ⟨[], ⟨[], []⟩,
          [⟨0, "Що таке Wi-Fi?",
            "🤖 Агент А (Технічний спеціаліст):\n❌ Не знайшов відповідної інформації в технічній документації.",
            "technical", mkRat 9 10⟩]⟩) := by
  decide

/-- Claim C9: an empty or all-whitespace input makes `handle_message`
(both variants) return the fixed prompt and leave the state — history,
refund and invoice stores — completely unchanged, invoking no responder. -/
theorem c9_blank_input_is_noop :
    (∀ (client : Option SysOracle) (st : SysState) (msg fresh : String) (now : Nat),
      pyStrip msg = "" →
        handle_message client st msg fresh now = ("Будь ласка, введіть ваше питання.", st))
    ∧ (∀ (st : CloudState) (msg fresh : String) (now : Nat) (ai_tech ai_bill : String),
      pyStrip msg = "" →
        handle_message_cloud st msg fresh now ai_tech ai_bill
          = ("Будь ласка, введіть ваше питання.", st)) := by
  constructor
  · intro client st msg fresh now h
    simp [handle_message, h]
  · intro st msg fresh now ai_tech ai_bill h
    simp [handle_message_cloud, h]

/-- Witness for C9 on a whitespace-only input in both variants. -/
theorem c9_blank_input_is_noop_witness :
    handle_message none ⟨[], ⟨[], []⟩, []⟩ "   " "a" 0
      = ("Будь ласка, введіть ваше питання.", ⟨[], ⟨[], []⟩, []⟩)
    ∧ handle_message_cloud ⟨[], ⟨[], []⟩, []⟩ "   " "a" 0 "t" "b"
      = ("Будь ласка, введіть ваше питання.", ⟨[], ⟨[], []⟩, []⟩) :=
  ⟨c9_blank_input_is_noop.1 none ⟨[], ⟨[], []⟩, []⟩ "   " "a" 0 (by decide),
    c9_blank_input_is_noop.2 ⟨[], ⟨[], []⟩, []⟩ "   " "a" 0 "t" "b" (by decide)⟩

/-- Claim C10: in the ChatGPT-integrated dispatcher, any non-empty
message classified with confidence below 0.6 yields the fixed
clarification prompt; the state (history included) is unchanged and no
responder runs. -/
theorem c10_low_confidence_clarification :
    ∀ (client : Option SysOracle) (st : SysState) (msg fresh : String) (now : Nat),
      ¬ (pyStrip msg = "") →
      (classify_intent (client.map (fun c => c.classify)) st.history msg).2 < mkRat 3 5 →
      handle_message client st msg fresh now = (clarify_message, st) := by
  intro client st msg fresh now h1 h2
  simp [handle_message, h1, h2]

/-- Witness for C10 on a keyword-free first message (confidence 0.5). -/
theorem c10_low_confidence_clarification_witness :
    handle_message none ⟨[], ⟨[], []⟩, []⟩ "привіт" "a" 0
      = (clarify_message, ⟨[], ⟨[], []⟩, []⟩) :=
  c10_low_confidence_clarification none ⟨[], ⟨[], []⟩, []⟩ "привіт" "a" 0
    (by decide) (by decide)

/-- Counterexample to C5 as stated: the final user message `network`
contains no instant-template keyword, the cloud backend is available, yet
the hybrid client returns the fast client's locally produced fallback
answer and never invokes the backend. -/
theorem c5_keyword_escalation_counterexample :
    fast_responses.any (fun kv => substrB kv.1 (last_user_message [⟨"user", "network"⟩])) = false
    ∧ (hybrid_generate true "minimax-m2:cloud" "CLOUD-ANSWER" [⟨"user", "network"⟩]).2 = false
    ∧ (hybrid_generate true "minimax-m2:cloud" "CLOUD-ANSWER" [⟨"user", "network"⟩]).1
        = fast_generate [⟨"user", "network"⟩] := by
  decide

/-- Claim C5 (amended): the hybrid client escalates to the model backend
(when available) exactly when the fast client produced its generic
not-recognized reply, i.e. when the final user message contains none of
the instant-template keywords and none of the fallback technical or
billing words; in that case, and when the backend reply is not
error-shaped, the returned text is the formatted backend answer. -/
theorem c5_keyword_escalation_amended :
    ∀ (messages : List Msg) (selected_model cloud_resp : String),
      fast_responses.any (fun kv => substrB kv.1 (last_user_message messages)) = false →
      anyKw fast_fallback_tech_words (last_user_message messages) = false →
      anyKw fast_fallback_billing_words (last_user_message messages) = false →
      (hybrid_generate true selected_model cloud_resp messages).2 = true
      ∧ (startsWithB cloud_resp "❌" = false →
          (hybrid_generate true selected_model cloud_resp messages).1
            = "🤖 **Детальна відповідь ("
                ++ (if substrB ":cloud" selected_model then "хмарної моделі" else "локальної моделі")
                ++ "):**\n\n" ++ cloud_resp) := by
  intro messages selected_model cloud_resp h1 h2 h3
  have hfind : fast_responses.find? (fun kv => substrB kv.1 (last_user_message messages)) = none := by
    rw [List.find?_eq_none]
    intro kv hkv
    have := (List.any_eq_false.mp h1) kv hkv
    simpa using this
  have hfast : fast_generate messages
      = "❓ **Питання не розпізнано**\n\nСпробуйте одне з цих питань:\n• Що таке IP-адреса?\n• Як працює Wi-Fi?\n• Створити рахунок\n• Політика відшкодувань" := by
    simp [fast_generate, hfind, fast_fallback_response, h2, h3]
  have hstart : startsWithB (fast_generate messages) "❓" = true := by
    rw [hfast]
    decide
  constructor
  · by_cases hresp : startsWithB cloud_resp "❌" = false
    · simp [hybrid_generate, hstart, hresp]
    · simp [hybrid_generate, hstart, hresp]
  · intro hresp
    simp [hybrid_generate, hstart, hresp]

/-- Witness for the amended C5 on a message hitting no keyword at all. -/
theorem c5_keyword_escalation_amended_witness :
    (hybrid_generate true "m" "Ok" [⟨"user", "привіт"⟩]).2 = true
    ∧ (hybrid_generate true "m" "Ok" [⟨"user", "привіт"⟩]).1
        = "🤖 **Детальна відповідь (локальної моделі):**\n\nOk" := by
  have h := c5_keyword_escalation_amended [⟨"user", "привіт"⟩] "m" "Ok"
    (by decide) (by decide) (by decide)
  refine ⟨h.1, ?_⟩
  rw [h.2 (by decide)]
  decide
